import Mathlib

/-!
Verification development for the surge-ping asynchronous ICMP echo client.

Shallow embedding of the relevant parts of the repository:
* the ICMPv4 / ICMPv6 packet codec (src/icmp/icmpv4.rs, src/icmp/icmpv6.rs),
  including the byte-level behaviour of the pnet packet accessors the code
  relies on (Ipv4Packet, IcmpPacket, Icmpv6Packet, EchoReplyPacket and the
  internet checksum of the util module of pnet);
* the reply map (src/client.rs, ReplyMap) with its destroyed flag, modelled
  over an association list standing for the guarded HashMap, with oneshot
  senders named by freshly allocated numeric ids;
* one iteration of the receiver task (src/client.rs, recv_task) and its fold
  over a finite prefix of the incoming datagram stream;
* the client lifecycle (clone / drop) as a state machine over the clone
  count, the abort flag of the receiver handle, and the shared reply map.

Machine integers are Nat with explicit bounds (u16 values are < 65536,
bytes are < 256 where it matters); fallible code returns Except.
-/

/-- Socket type as recorded by AsyncSocket (socket2 Type): datagram or raw. -/
inductive SockType where
  | dgram : SockType
  | raw : SockType
deriving DecidableEq, Repr

/-- The is_linux_icmp_socket! macro of src/client.rs: true exactly when the
socket behaves as a Linux/Android unprivileged ICMP datagram socket.  The
compile-time cfg! test is the Boolean parameter platformLinuxLike. -/
def is_linux_icmp_socket (platformLinuxLike : Bool) (sock_type : SockType) : Bool :=
  if (sock_type == SockType.dgram && !platformLinuxLike) || sock_type == SockType.raw then
    false
  else
    true

/-- An IPv4 address as four octets (std::net::Ipv4Addr). -/
structure Ipv4Addr where
  o0 : Nat
  o1 : Nat
  o2 : Nat
  o3 : Nat
deriving DecidableEq, Repr

/-- An IPv6 address as eight 16-bit segments (std::net::Ipv6Addr). -/
structure Ipv6Addr where
  segs : List Nat
deriving DecidableEq, Repr

/-- Ipv6Addr::LOCALHOST, the constant ::1. -/
def Ipv6Addr.localhost : Ipv6Addr := ⟨[0, 0, 0, 0, 0, 0, 0, 1]⟩

/-- std::net::IpAddr. -/
inductive IpAddr where
  | V4 : Ipv4Addr → IpAddr
  | V6 : Ipv6Addr → IpAddr
deriving DecidableEq, Repr

/-- MalformedPacketError of src/error.rs. -/
inductive MalformedPacketError where
  | notIpv4Packet : MalformedPacketError
  | notIpv6Packet : MalformedPacketError
  | notIcmpv4Packet : MalformedPacketError
  | notIcmpv6Packet : MalformedPacketError
  | payloadTooShort : (got : Nat) → (want : Nat) → MalformedPacketError
deriving DecidableEq, Repr

/-- SurgeError of src/error.rs (the io::Error payload of IOError is elided;
no claim depends on it). -/
inductive SurgeError where
  | incorrectBufferSize : SurgeError
  | malformedPacket : MalformedPacketError → SurgeError
  | ioError : SurgeError
  | timeout : (seq : Nat) → SurgeError
  | echoRequestPacket : SurgeError
  | networkError : SurgeError
  | identicalRequests : (host : IpAddr) → (ident : Option Nat) → (seq : Nat) → SurgeError
  | clientDestroyed : SurgeError
deriving DecidableEq, Repr

/-- Big-endian 16-bit read at byte offset i (u16::from_be_bytes over a
2-byte slice; out-of-range bytes read as 0, which claims never rely on). -/
def be16 (buf : List Nat) (i : Nat) : Nat :=
  256 * buf.getD i 0 + buf.getD (i + 1) 0

/-- pnet Ipv4Packet::get_header_length: the low nibble of byte 0. -/
def ipv4HeaderLength (buf : List Nat) : Nat := buf.getD 0 0 % 16

/-- pnet Ipv4Packet::get_total_length: big-endian u16 at bytes 2..4. -/
def ipv4TotalLength (buf : List Nat) : Nat := be16 buf 2

/-- pnet Ipv4Packet::get_ttl: byte 8. -/
def ipv4Ttl (buf : List Nat) : Nat := buf.getD 8 0

/-- pnet Ipv4Packet::get_source: bytes 12..16. -/
def ipv4Source (buf : List Nat) : Ipv4Addr :=
  ⟨buf.getD 12 0, buf.getD 13 0, buf.getD 14 0, buf.getD 15 0⟩

/-- pnet Ipv4Packet::get_destination: bytes 16..20. -/
def ipv4Destination (buf : List Nat) : Ipv4Addr :=
  ⟨buf.getD 16 0, buf.getD 17 0, buf.getD 18 0, buf.getD 19 0⟩

/-- pnet Ipv4Packet::payload: the slice from the end of the options
(20 + options length, where options length is header_length * 4 saturating
minus 20) up to min(start + (total_length saturating minus header bytes),
buffer length); empty when the buffer does not reach past the header. -/
def ipv4Payload (buf : List Nat) : List Nat :=
  let start := 20 + (ipv4HeaderLength buf * 4 - 20)
  let plen := ipv4TotalLength buf - ipv4HeaderLength buf * 4
  let stop := min (start + plen) buf.length
  if buf.length ≤ start then [] else (buf.drop start).take (stop - start)

/-- Packet structure returned by ICMPv4 (struct Icmpv4Packet of
src/icmp/icmpv4.rs); identifier and sequence are the u16 values of the
PingIdentifier / PingSequence newtypes. -/
structure Icmpv4Packet where
  source : Ipv4Addr
  destination : Ipv4Addr
  ttl : Option Nat
  icmp_type : Nat
  icmp_code : Nat
  size : Nat
  real_dest : Ipv4Addr
  identifier : Nat
  sequence : Nat
deriving DecidableEq, Repr

/-- impl Default for Icmpv4Packet. -/
def Icmpv4Packet.default : Icmpv4Packet :=
  { source := ⟨127, 0, 0, 1⟩
    destination := ⟨127, 0, 0, 1⟩
    ttl := none
    icmp_type := 0
    icmp_code := 0
    size := 0
    real_dest := ⟨127, 0, 0, 1⟩
    identifier := 0
    sequence := 0 }

/-- Icmpv4Packet::decode_from_ipv4: raw-socket shape.  The datagram starts
with an IPv4 header (pnet Ipv4Packet::new fails below 20 bytes); its payload
is parsed as ICMP (pnet IcmpPacket::new fails below 4 bytes, type is byte 0,
code byte 1, the ICMP payload the bytes from offset 4 on).  Echo reply
(type 0) re-parses as EchoReplyPacket (fails below 8 bytes) and reads
identifier and sequence from bytes 4..8; echo request (type 8) is rejected;
any other type requires a 32-byte ICMP payload, recovers real_dest from the
embedded IPv4 header at payload offset 4, and reads identifier and sequence
from payload offsets 28..30 and 30..32. -/
def Icmpv4Packet.decode_from_ipv4 (buf : List Nat) : Except SurgeError Icmpv4Packet :=
  if buf.length < 20 then
    .error (.malformedPacket .notIpv4Packet)
  else
    let ipl := ipv4Payload buf
    if ipl.length < 4 then
      .error (.malformedPacket .notIcmpv4Packet)
    else if ipl.getD 0 0 = 0 then
      if ipl.length < 8 then
        .error (.malformedPacket .notIcmpv4Packet)
      else
        .ok { Icmpv4Packet.default with
                source := ipv4Source buf
                destination := ipv4Destination buf
                ttl := some (ipv4Ttl buf)
                icmp_type := ipl.getD 0 0
                icmp_code := ipl.getD 1 0
                size := ipl.length
                real_dest := ipv4Source buf
                identifier := be16 ipl 4
                sequence := be16 ipl 6 }
    else if ipl.getD 0 0 = 8 then
      .error .echoRequestPacket
    else
      let icmp_payload := ipl.drop 4
      if icmp_payload.length < 32 then
        .error (.malformedPacket (.payloadTooShort icmp_payload.length 32))
      else if (icmp_payload.drop 4).length < 20 then
        .error (.malformedPacket .notIpv4Packet)
      else
        .ok { Icmpv4Packet.default with
                source := ipv4Source buf
                destination := ipv4Destination buf
                ttl := some (ipv4Ttl buf)
                icmp_type := ipl.getD 0 0
                icmp_code := ipl.getD 1 0
                size := ipl.length
                real_dest := ipv4Destination (icmp_payload.drop 4)
                identifier := be16 icmp_payload 28
                sequence := be16 icmp_payload 30 }

/-- Icmpv4Packet::decode_from_icmp: unprivileged-datagram shape.  The kernel
already stripped the IPv4 header, so the buffer itself is the ICMP message;
source, destination and real_dest for echo replies come from the recvfrom
tuple, and the ttl is never set (stays None). -/
def Icmpv4Packet.decode_from_icmp (buf : List Nat) (src_addr dst_addr : Ipv4Addr) :
    Except SurgeError Icmpv4Packet :=
  if buf.length < 4 then
    .error (.malformedPacket .notIcmpv4Packet)
  else if buf.getD 0 0 = 0 then
    if buf.length < 8 then
      .error (.malformedPacket .notIcmpv4Packet)
    else
      .ok { Icmpv4Packet.default with
              source := src_addr
              destination := dst_addr
              icmp_type := buf.getD 0 0
              icmp_code := buf.getD 1 0
              size := buf.length
              real_dest := src_addr
              identifier := be16 buf 4
              sequence := be16 buf 6 }
  else if buf.getD 0 0 = 8 then
    .error .echoRequestPacket
  else
    let icmp_payload := buf.drop 4
    if icmp_payload.length < 32 then
      .error (.malformedPacket (.payloadTooShort icmp_payload.length 32))
    else if (icmp_payload.drop 4).length < 20 then
      .error (.malformedPacket .notIpv4Packet)
    else
      .ok { Icmpv4Packet.default with
              source := src_addr
              destination := dst_addr
              icmp_type := buf.getD 0 0
              icmp_code := buf.getD 1 0
              size := buf.length
              real_dest := ipv4Destination (icmp_payload.drop 4)
              identifier := be16 icmp_payload 28
              sequence := be16 icmp_payload 30 }

/-- Icmpv4Packet::decode: dispatch on the socket type. -/
def Icmpv4Packet.decode (platformLinuxLike : Bool) (buf : List Nat) (sock_type : SockType)
    (src_addr dst_addr : Ipv4Addr) : Except SurgeError Icmpv4Packet :=
  if is_linux_icmp_socket platformLinuxLike sock_type then
    Icmpv4Packet.decode_from_icmp buf src_addr dst_addr
  else
    Icmpv4Packet.decode_from_ipv4 buf

/-- Packet structure returned by ICMPv6 (struct Icmpv6Packet of
src/icmp/icmpv6.rs). -/
structure Icmpv6Packet where
  source : Ipv6Addr
  destination : Ipv6Addr
  max_hop_limit : Nat
  icmpv6_type : Nat
  icmpv6_code : Nat
  size : Nat
  real_dest : Ipv6Addr
  identifier : Nat
  sequence : Nat
deriving DecidableEq, Repr

/-- impl Default for Icmpv6Packet. -/
def Icmpv6Packet.default : Icmpv6Packet :=
  { source := Ipv6Addr.localhost
    destination := Ipv6Addr.localhost
    max_hop_limit := 0
    icmpv6_type := 0
    icmpv6_code := 0
    size := 0
    real_dest := Ipv6Addr.localhost
    identifier := 0
    sequence := 0 }

/-- Icmpv6Packet::decode (src/icmp/icmpv6.rs).  pnet Icmpv6Packet::new fails
below 4 bytes; type is byte 0, code byte 1, the ICMPv6 payload the bytes
from offset 4 on.  Echo request (type 128) is rejected; echo reply (type
129) needs a 4-byte payload and reads identifier and sequence from its
first four octets, setting the destination field to the constant ::1 and
real_dest to the peer address; any other type needs a 48-byte payload and
reads identifier and sequence from payload offsets 44..46 and 46..48,
leaving real_dest at its default ::1. -/
def Icmpv6Packet.decode (buf : List Nat) (destination : Ipv6Addr) :
    Except SurgeError Icmpv6Packet :=
  if buf.length < 4 then
    .error (.malformedPacket .notIcmpv6Packet)
  else
    let icmpv6_payload := buf.drop 4
    if buf.getD 0 0 = 128 then
      .error .echoRequestPacket
    else if buf.getD 0 0 = 129 then
      if icmpv6_payload.length < 4 then
        .error (.malformedPacket (.payloadTooShort icmpv6_payload.length 4))
      else
        .ok { Icmpv6Packet.default with
                source := destination
                destination := Ipv6Addr.localhost
                max_hop_limit := 0
                icmpv6_type := buf.getD 0 0
                icmpv6_code := buf.getD 1 0
                size := buf.length
                real_dest := destination
                identifier := be16 icmpv6_payload 0
                sequence := be16 icmpv6_payload 2 }
    else
      if icmpv6_payload.length < 48 then
        .error (.malformedPacket (.payloadTooShort icmpv6_payload.length 48))
      else
        .ok { Icmpv6Packet.default with
                source := destination
                destination := destination
                max_hop_limit := 0
                icmpv6_type := buf.getD 0 0
                icmpv6_code := buf.getD 1 0
                size := buf.length
                identifier := be16 icmpv6_payload 44
                sequence := be16 icmpv6_payload 46 }

/-- pnet util::sum_be_words: sum the buffer as big-endian 16-bit words,
skipping the word at index skip (unless it is word 0); a trailing odd byte
counts as the high byte of a final word. -/
def sumBeWordsFrom (skip : Nat) : Nat → List Nat → Nat
  | i, a :: b :: rest =>
      (if i = skip ∧ i ≠ 0 then 0 else 256 * a + b) + sumBeWordsFrom skip (i + 1) rest
  | _, [a] => 256 * a
  | _, [] => 0

/-- One step of pnet util::finalize_checksum: fold the carry bits above 16
into the low 16 bits until the sum fits in a u16. -/
def foldCarry (n : Nat) : Nat :=
  if h : n < 65536 then n else foldCarry (n / 65536 + n % 65536)
termination_by n
decreasing_by
  have h1 : 1 ≤ n / 65536 := Nat.one_le_div_iff (by norm_num) |>.mpr (Nat.le_of_not_lt h)
  omega

/-- pnet icmp::checksum: the internet checksum of the ICMP message, the
complement of the folded 16-bit ones-complement sum, computed with
the checksum word (word index 1) skipped. -/
def icmpChecksum (data : List Nat) : Nat :=
  65535 - foldCarry (sumBeWordsFrom 1 0 data)

/-- pnet set_payload for the mutable echo-request packet: copy the payload
bytes into the buffer starting at offset 8. -/
def setPayloadAt8 (l : List Nat) (payload : List Nat) : List Nat :=
  l.take 8 ++ payload ++ l.drop (8 + payload.length)

/-- Write a u16 big-endian at byte offset i (pnet set_u16 field setter). -/
def set16 (l : List Nat) (i v : Nat) : List Nat :=
  (l.set i (v / 256 % 256)).set (i + 1) (v % 256)

/-- make_icmpv4_echo_packet of src/icmp/icmpv4.rs: an 8-byte ICMP header
(type 8, code 0, checksum, identifier, sequence) followed by the payload.
On a Linux/Android unprivileged ICMP datagram socket the identifier and
checksum fields are left zero (the kernel rewrites them); otherwise the
identifier is written and the internet checksum is computed over the
packet and written into bytes 2..4. -/
def make_icmpv4_echo_packet (platformLinuxLike : Bool) (ident_hint seq_cnt : Nat)
    (sock_type : SockType) (payload : List Nat) : Except SurgeError (List Nat) :=
  let buf := List.replicate (8 + payload.length) 0
  if buf.length < 8 then .error .incorrectBufferSize
  else
    let b1 := buf.set 0 8
    let b2 := setPayloadAt8 b1 payload
    let b3 := set16 b2 6 seq_cnt
    if is_linux_icmp_socket platformLinuxLike sock_type then .ok b3
    else
      let b4 := set16 b3 4 ident_hint
      if b4.length < 4 then .error .incorrectBufferSize
      else .ok (set16 b4 2 (icmpChecksum b4))

/-- The ReplyToken of src/client.rs: (host, identifier-or-unknown, sequence). -/
structure ReplyToken where
  host : IpAddr
  ident : Option Nat
  seq : Nat
deriving DecidableEq, Repr

/-- Look up a token in the association list standing for the HashMap. -/
def findEntry : List (ReplyToken × Nat) → ReplyToken → Option Nat
  | [], _ => none
  | (k, v) :: rest, t => if k = t then some v else findEntry rest t

/-- HashMap::insert: store the value under the token, replacing and
returning any previous value. -/
def insertEntry : List (ReplyToken × Nat) → ReplyToken → Nat →
    Option Nat × List (ReplyToken × Nat)
  | [], t, v => (none, [(t, v)])
  | (k, w) :: rest, t, v =>
      if k = t then (some w, (t, v) :: rest)
      else
        let r := insertEntry rest t v
        (r.1, (k, w) :: r.2)

/-- HashMap::remove: take the entry for the token out of the map, if any. -/
def removeEntry : List (ReplyToken × Nat) → ReplyToken →
    Option Nat × List (ReplyToken × Nat)
  | [], _ => (none, [])
  | (k, w) :: rest, t =>
      if k = t then (some w, rest)
      else
        let r := removeEntry rest t
        (r.1, (k, w) :: r.2)

/-- The state of a ReplyMap (src/client.rs): the guarded map from tokens to
oneshot senders (senders named by numeric ids), the alive flag, and a
counter allocating fresh sender ids for newly created oneshot channels. -/
structure ReplyMapState where
  entries : List (ReplyToken × Nat)
  alive : Bool
  next : Nat
deriving DecidableEq, Repr

/-- ReplyMap::default: empty map, alive. -/
def ReplyMapState.init : ReplyMapState := ⟨[], true, 0⟩

/-- ReplyMap::new_waiter: refuse with ClientDestroyed when the alive flag is
down; otherwise create a fresh oneshot channel and insert its sender —
HashMap::insert replaces any existing entry — and fail with
IdenticalRequests when an old sender was displaced, returning the receiver
id otherwise. -/
def ReplyMapState.new_waiter (s : ReplyMapState) (host : IpAddr) (ident : Option Nat)
    (seq : Nat) : Except SurgeError Nat × ReplyMapState :=
  if !s.alive then
    (.error .clientDestroyed, s)
  else
    let tx := s.next
    let r := insertEntry s.entries ⟨host, ident, seq⟩ tx
    let s' : ReplyMapState := { s with entries := r.2, next := s.next + 1 }
    match r.1 with
    | some _ => (.error (.identicalRequests host ident seq), s')
    | none => (.ok tx, s')

/-- ReplyMap::remove. -/
def ReplyMapState.remove (s : ReplyMapState) (host : IpAddr) (ident : Option Nat)
    (seq : Nat) : Option Nat × ReplyMapState :=
  let r := removeEntry s.entries ⟨host, ident, seq⟩
  (r.1, { s with entries := r.2 })

/-- ReplyMap::mark_destroyed: clear the alive flag. -/
def ReplyMapState.mark_destroyed (s : ReplyMapState) : ReplyMapState :=
  { s with alive := false }

/-- An operation on the reply map, for quantification over what can happen
to the map after some point in time. -/
inductive MapOp where
  | newWaiterOp : IpAddr → Option Nat → Nat → MapOp
  | removeOp : IpAddr → Option Nat → Nat → MapOp
  | markDestroyedOp : MapOp
deriving DecidableEq, Repr

/-- Apply one reply-map operation to the state. -/
def applyMapOp (s : ReplyMapState) : MapOp → ReplyMapState
  | .newWaiterOp h i q => (s.new_waiter h i q).2
  | .removeOp h i q => (s.remove h i q).2
  | .markDestroyedOp => s.mark_destroyed

/-- Apply a sequence of reply-map operations. -/
def applyMapOps (s : ReplyMapState) : List MapOp → ReplyMapState
  | [] => s
  | op :: rest => applyMapOps (applyMapOp s op) rest

/-- The decoded packet handed to a waiter (enum IcmpPacket of
src/icmp/mod.rs). -/
inductive IcmpPacket where
  | V4 : Icmpv4Packet → IcmpPacket
  | V6 : Icmpv6Packet → IcmpPacket
deriving DecidableEq, Repr

/-- IcmpPacket::get_identifier as used by recv_task. -/
def IcmpPacket.get_identifier : IcmpPacket → Nat
  | .V4 p => p.identifier
  | .V6 p => p.identifier

/-- IcmpPacket::get_sequence as used by recv_task. -/
def IcmpPacket.get_sequence : IcmpPacket → Nat
  | .V4 p => p.sequence
  | .V6 p => p.sequence

/-- A Reply delivered to a waiter (struct Reply of src/client.rs), together
with the id of the oneshot sender it was sent on. -/
structure Delivery where
  sender : Nat
  timestamp : Nat
  packet : IcmpPacket
deriving DecidableEq, Repr

/-- One iteration of recv_task (src/client.rs): decode the datagram (v4
datagrams with a non-v4 local address are skipped, as is any decode error),
compute the identifier disposition from the socket type, remove the waiter
keyed by (peer, identifier-or-none, sequence) and deliver the reply to it,
or drop the datagram when no waiter exists. -/
def recv_step (platformLinuxLike : Bool) (sock_type : SockType) (localAddr : IpAddr)
    (s : ReplyMapState) (msg : List Nat) (peer : IpAddr) (now : Nat) :
    ReplyMapState × Option Delivery :=
  let deliver : IcmpPacket → ReplyMapState × Option Delivery := fun packet =>
    let ident := if is_linux_icmp_socket platformLinuxLike sock_type then none
                 else some packet.get_identifier
    let r := s.remove peer ident packet.get_sequence
    match r.1 with
    | some waiter => (r.2, some ⟨waiter, now, packet⟩)
    | none => (r.2, none)
  match peer with
  | .V4 src =>
      match localAddr with
      | .V4 l =>
          match Icmpv4Packet.decode platformLinuxLike msg sock_type src l with
          | .error _ => (s, none)
          | .ok p => deliver (.V4 p)
      | .V6 _ => (s, none)
  | .V6 src =>
      match Icmpv6Packet.decode msg src with
      | .error _ => (s, none)
      | .ok p => deliver (.V6 p)

/-- A received datagram: the bytes and the peer address of the recvfrom
tuple, with the arrival timestamp recorded by the receiver. -/
structure Datagram where
  msg : List Nat
  peer : IpAddr
  now : Nat
deriving DecidableEq, Repr

/-- The receiver loop folded over a finite prefix of the datagram stream,
collecting the replies it delivers. -/
def recv_run (platformLinuxLike : Bool) (sock_type : SockType) (localAddr : IpAddr)
    (s : ReplyMapState) : List Datagram → ReplyMapState × List Delivery
  | [] => (s, [])
  | d :: rest =>
      let r := recv_step platformLinuxLike sock_type localAddr s d.msg d.peer d.now
      let r' := recv_run platformLinuxLike sock_type localAddr r.1 rest
      (r'.1, (r.2.map fun x => [x]).getD [] ++ r'.2)

/-- The datagram of a v4 peer fails to decode in the configured shape (the
decode step of the receiver returns an error; family mismatches are not decode
failures). -/
def decodeFails (platformLinuxLike : Bool) (sock_type : SockType) (localAddr : IpAddr)
    (msg : List Nat) (peer : IpAddr) : Prop :=
  match peer with
  | .V4 src =>
      match localAddr with
      | .V4 l => ∃ e, Icmpv4Packet.decode platformLinuxLike msg sock_type src l = .error e
      | .V6 _ => False
  | .V6 src => ∃ e, Icmpv6Packet.decode msg src = .error e

/-- The lifecycle state of a Client and its clones (src/client.rs): the
number of live clones (the strong count of the shared receiver handle), the
abort flag of the receiver task, and the shared reply map. -/
structure ClientState where
  clones : Nat
  aborted : Bool
  map : ReplyMapState
deriving DecidableEq, Repr

/-- Client::new: one owner, receiver running, fresh reply map. -/
def clientNew : ClientState := ⟨1, false, ReplyMapState.init⟩

/-- Clone for Client: one more owner of the shared handle and map. -/
def cloneClient (s : ClientState) : ClientState :=
  { s with clones := s.clones + 1 }

/-- Drop for Client: mark the reply map destroyed, and abort the receiver
task when this owner was the last one (strong count at most 1). -/
def dropClient (s : ClientState) : ClientState :=
  { clones := s.clones - 1
    aborted := if s.clones ≤ 1 then true else s.aborted
    map := s.map.mark_destroyed }

/-- A lifecycle operation on a client value. -/
inductive ClientOp where
  | cloneOp : ClientOp
  | dropOp : ClientOp
deriving DecidableEq, Repr

/-- Run a sequence of lifecycle operations. -/
def runClientOps (s : ClientState) : List ClientOp → ClientState
  | [] => s
  | .cloneOp :: rest => runClientOps (cloneClient s) rest
  | .dropOp :: rest => runClientOps (dropClient s) rest

/-- A lifecycle trace is valid when every operation acts on a live handle:
cloning and dropping both require at least one clone to exist. -/
def validClientOps : Nat → List ClientOp → Bool
  | _, [] => true
  | n, .cloneOp :: rest => decide (1 ≤ n) && validClientOps (n + 1) rest
  | n, .dropOp :: rest => decide (1 ≤ n) && validClientOps (n - 1) rest

/-- Modelled from the spec: the saturating subtraction of Instant values
used by the current Pinger (src/ping.rs is present only as a stale
historical revision; the Pinger matching client.rs is not under src/).
The spec: return arrival minus send-time, clamped to zero if the clock is
non-monotonic (use a saturating subtraction). -/
def saturating_duration_since (arrival send_time : Nat) : Nat :=
  if send_time ≤ arrival then arrival - send_time else 0

/-- Modelled from the spec: Pinger::recv_reply of the current src/ping.rs
(missing from src/).  On a delivered Reply, hand back the packet with the
duration from the recorded send timestamp to the arrival
timestamp of the reply, saturated at zero. -/
def pinger_recv_reply (send_time : Nat) (reply : Delivery) : IcmpPacket × Nat :=
  (reply.packet, saturating_duration_since reply.timestamp send_time)

/-- Modelled from the spec: the await step of Pinger::ping of the current
src/ping.rs (missing from src/).  The slot of the waiter either yields a Reply
within the timeout (success), or the timer elapses (Timeout with the
sequence), or the slot is closed (NetworkError). -/
inductive WaitOutcome where
  | delivered : Delivery → WaitOutcome
  | timedOut : WaitOutcome
  | channelClosed : WaitOutcome
deriving DecidableEq, Repr

/-- Modelled from the spec: Pinger::ping of the current src/ping.rs
(missing from src/), from the point where the packet was sent: record the
send timestamp, await the waiter with the timeout, and map the outcome to
Ok (packet, arrival minus send, saturated) / Timeout{seq} / NetworkError. -/
def pinger_ping (send_time : Nat) (seq : Nat) (outcome : WaitOutcome) :
    Except SurgeError (IcmpPacket × Nat) :=
  match outcome with
  | .delivered r => .ok (pinger_recv_reply send_time r)
  | .timedOut => .error (.timeout seq)
  | .channelClosed => .error .networkError

/-- The malformed 26-byte v4 datagram of the specification (hex
4500001d0000000079018a76acd90e6e0a00f22203006c3293cc). -/
def malformedV4Msg : List Nat :=
  [69, 0, 0, 29, 0, 0, 0, 0, 121, 1, 138, 118, 172, 217, 14, 110,
   10, 0, 242, 34, 3, 0, 108, 50, 147, 204]

/-- A sample reply-map state with one registered waiter. -/
def sampleMapState : ReplyMapState :=
  ⟨[(⟨IpAddr.V4 ⟨172, 217, 14, 110⟩, some 42, 0⟩, 0)], true, 1⟩

/-- A destination-unreachable ICMP message in the unprivileged-datagram
shape: type 3, code 1, then a 32-byte payload of 4 unused bytes, an
embedded IPv4 header with destination 1.2.3.4, the first 4 bytes of the
embedded echo request, and identifier 42 / sequence 7. -/
def sampleUnreachIcmp : List Nat :=
  [3, 1, 0, 0,
   0, 0, 0, 0,
   69, 0, 0, 0, 0, 0, 0, 0, 64, 1, 0, 0, 10, 0, 0, 1, 1, 2, 3, 4,
   8, 0, 0, 0,
   0, 42, 0, 7]

/-- The same destination-unreachable message wrapped in an outer IPv4
header (total length 56, ttl 64, source 192.0.2.9, destination 10.0.0.2),
as a raw socket would deliver it. -/
def sampleUnreachIpv4 : List Nat :=
  [69, 0, 0, 56, 0, 0, 0, 0, 64, 1, 0, 0, 192, 0, 2, 9, 10, 0, 0, 2] ++ sampleUnreachIcmp

/-- The packet obtained by decoding the v6 echo reply 81 00 0000 0005 0009
received from ::1: identifier 5, sequence 9. -/
def sampleReply6FromLocal : Icmpv6Packet :=
  { source := Ipv6Addr.localhost
    destination := Ipv6Addr.localhost
    max_hop_limit := 0
    icmpv6_type := 129
    icmpv6_code := 0
    size := 8
    real_dest := Ipv6Addr.localhost
    identifier := 5
    sequence := 9 }

/-- The packet obtained by decoding the v6 echo reply 81 00 0000 0001 0002
received from the non-local address with bytes 1..8 as segments. -/
def sampleReply6FromRemote : Icmpv6Packet :=
  { source := ⟨[1, 2, 3, 4, 5, 6, 7, 8]⟩
    destination := Ipv6Addr.localhost
    max_hop_limit := 0
    icmpv6_type := 129
    icmpv6_code := 0
    size := 8
    real_dest := ⟨[1, 2, 3, 4, 5, 6, 7, 8]⟩
    identifier := 1
    sequence := 2 }


/-- insertEntry returns the value previously stored under the token. -/
theorem insertEntry_fst (l : List (ReplyToken × Nat)) (t : ReplyToken) (v : Nat) :
    (insertEntry l t v).1 = findEntry l t := by
  induction l with
  | nil => rfl
  | cons kv rest ih =>
      obtain ⟨k, w⟩ := kv
      by_cases hk : k = t
      · simp [insertEntry, findEntry, hk]
      · simp [insertEntry, findEntry, hk, ih]

/-- When the token is already present, insertEntry preserves the key set. -/
theorem insertEntry_keys (l : List (ReplyToken × Nat)) (t : ReplyToken) (v old : Nat)
    (hf : findEntry l t = some old) :
    (insertEntry l t v).2.map Prod.fst = l.map Prod.fst := by
  induction l with
  | nil => simp [findEntry] at hf
  | cons kv rest ih =>
      obtain ⟨k, w⟩ := kv
      by_cases hk : k = t
      · simp [insertEntry, hk]
      · simp only [findEntry, if_neg hk] at hf
        simp [insertEntry, hk, ih hf]

/-- After insertEntry, looking up the token yields the new value. -/
theorem insertEntry_find_self (l : List (ReplyToken × Nat)) (t : ReplyToken) (v : Nat) :
    findEntry (insertEntry l t v).2 t = some v := by
  induction l with
  | nil => simp [insertEntry, findEntry]
  | cons kv rest ih =>
      obtain ⟨k, w⟩ := kv
      by_cases hk : k = t
      · simp [insertEntry, findEntry, hk]
      · simp [insertEntry, findEntry, hk, ih]

/-- insertEntry leaves every other token unchanged. -/
theorem insertEntry_find_other (l : List (ReplyToken × Nat)) (t t' : ReplyToken) (v : Nat)
    (hne : t' ≠ t) : findEntry (insertEntry l t v).2 t' = findEntry l t' := by
  have hne2 : ¬ t = t' := fun h => hne h.symm
  induction l with
  | nil => simp [insertEntry, findEntry, hne2]
  | cons kv rest ih =>
      obtain ⟨k, w⟩ := kv
      by_cases hk : k = t
      · subst hk
        simp [insertEntry, findEntry, hne2]
      · simp [insertEntry, findEntry, hk, ih]

/-- C2, the claim as stated is false: with the destroyed flag down and the
token (127.0.0.1, Some 42, 0) already waiting with sender id 0, new_waiter
does return IdenticalRequests, but the map after the call differs from the
map before it — HashMap::insert already replaced the stored sender with the
fresh one (id 1 here). -/
theorem c2_duplicate_modifies_map :
    (ReplyMapState.new_waiter ⟨[(⟨IpAddr.V4 ⟨127, 0, 0, 1⟩, some 42, 0⟩, 0)], true, 1⟩
        (IpAddr.V4 ⟨127, 0, 0, 1⟩) (some 42) 0).2 ≠
      (⟨[(⟨IpAddr.V4 ⟨127, 0, 0, 1⟩, some 42, 0⟩, 0)], true, 1⟩ : ReplyMapState) := by
  decide

/-- C2 (amended): for every alive reply-map state whose map already holds
the token (host, ident, seq), new_waiter returns IdenticalRequests{host,
ident, seq} and leaves the key set, every other entry, and the alive flag
unchanged — but the sender stored under the token is replaced by the fresh
one (the original waiter entry is displaced, not preserved). -/
theorem c2_duplicate_token_behaviour (s : ReplyMapState) (host : IpAddr)
    (ident : Option Nat) (seq : Nat) (old : Nat) (halive : s.alive = true)
    (hfound : findEntry s.entries ⟨host, ident, seq⟩ = some old) :
    (s.new_waiter host ident seq).1 = .error (.identicalRequests host ident seq) ∧
    (s.new_waiter host ident seq).2.entries.map Prod.fst = s.entries.map Prod.fst ∧
    findEntry (s.new_waiter host ident seq).2.entries ⟨host, ident, seq⟩ = some s.next ∧
    (∀ t : ReplyToken, t ≠ ⟨host, ident, seq⟩ →
      findEntry (s.new_waiter host ident seq).2.entries t = findEntry s.entries t) ∧
    (s.new_waiter host ident seq).2.alive = s.alive := by
  have hins := insertEntry_fst s.entries ⟨host, ident, seq⟩ s.next
  rw [hfound] at hins
  unfold ReplyMapState.new_waiter
  rw [halive]
  simp only [Bool.not_true, Bool.false_eq_true, if_false, hins]
  exact ⟨trivial, insertEntry_keys _ _ _ old hfound, insertEntry_find_self _ _ _,
    fun t ht => insertEntry_find_other _ _ _ _ ht, trivial⟩

/-- Witness for the amended C2 at the counterexample state: the duplicate
registration errors while the stored sender has become the fresh id 1. -/
theorem c2_duplicate_token_behaviour_witness :
    (ReplyMapState.new_waiter ⟨[(⟨IpAddr.V4 ⟨127, 0, 0, 1⟩, some 42, 0⟩, 0)], true, 1⟩
        (IpAddr.V4 ⟨127, 0, 0, 1⟩) (some 42) 0).1 =
      .error (.identicalRequests (IpAddr.V4 ⟨127, 0, 0, 1⟩) (some 42) 0) ∧
    findEntry (ReplyMapState.new_waiter ⟨[(⟨IpAddr.V4 ⟨127, 0, 0, 1⟩, some 42, 0⟩, 0)], true, 1⟩
        (IpAddr.V4 ⟨127, 0, 0, 1⟩) (some 42) 0).2.entries
      ⟨IpAddr.V4 ⟨127, 0, 0, 1⟩, some 42, 0⟩ = some 1 := by
  have h := c2_duplicate_token_behaviour
    ⟨[(⟨IpAddr.V4 ⟨127, 0, 0, 1⟩, some 42, 0⟩, 0)], true, 1⟩
    (IpAddr.V4 ⟨127, 0, 0, 1⟩) (some 42) 0 0 rfl rfl
  exact ⟨h.1, h.2.2.1⟩

/-- Reply-map operations never raise the alive flag once it is down. -/
theorem applyMapOp_alive_false (s : ReplyMapState) (op : MapOp) (h : s.alive = false) :
    (applyMapOp s op).alive = false := by
  cases op with
  | newWaiterOp host i q =>
      simp [applyMapOp, ReplyMapState.new_waiter, h]
  | removeOp host i q => simp [applyMapOp, ReplyMapState.remove, h]
  | markDestroyedOp => simp [applyMapOp, ReplyMapState.mark_destroyed]

/-- The alive flag stays down across any sequence of reply-map operations. -/
theorem applyMapOps_alive_false (ops : List MapOp) :
    ∀ s : ReplyMapState, s.alive = false → (applyMapOps s ops).alive = false := by
  induction ops with
  | nil => intro s h; exact h
  | cons op rest ih =>
      intro s h
      exact ih _ (applyMapOp_alive_false s op h)

/-- C3: after mark_destroyed — which Drop for Client performs on the shared
reply map — every later new_waiter call, whatever reply-map operations
happened in between and whatever host, identifier and sequence it is given,
returns ClientDestroyed. -/
theorem c3_new_waiter_after_mark_destroyed :
    (∀ (s : ReplyMapState) (ops : List MapOp) (host : IpAddr) (ident : Option Nat) (seq : Nat),
        ((applyMapOps s.mark_destroyed ops).new_waiter host ident seq).1 =
          .error .clientDestroyed) ∧
    (∀ c : ClientState, (dropClient c).map.alive = false) := by
  constructor
  · intro s ops host ident seq
    have h : (applyMapOps s.mark_destroyed ops).alive = false :=
      applyMapOps_alive_false ops s.mark_destroyed rfl
    simp [ReplyMapState.new_waiter, h]
  · intro c
    rfl

/-- C1, the claim as stated is false: after cloning a client and dropping
one of the two clones, one clone still exists (the receiver handle is not
aborted), yet new_waiter on its reply map is refused with ClientDestroyed —
Drop for Client marks the map destroyed on every clone drop, not only on
the last one. -/
theorem c1_new_waiter_refused_while_clone_exists :
    (runClientOps clientNew [ClientOp.cloneOp, ClientOp.dropOp]).clones = 1 ∧
    (runClientOps clientNew [ClientOp.cloneOp, ClientOp.dropOp]).aborted = false ∧
    ((runClientOps clientNew [ClientOp.cloneOp, ClientOp.dropOp]).map.new_waiter
        (IpAddr.V4 ⟨127, 0, 0, 1⟩) (some 42) 0).1 = .error .clientDestroyed :=
  ⟨rfl, rfl, rfl⟩

/-- The receiver-abort flag tracks the clone count along any valid trace:
it stays down while a clone exists and is up once the count reaches zero. -/
theorem runClientOps_abort_inv (ops : List ClientOp) :
    ∀ s : ClientState, validClientOps s.clones ops = true →
      ((1 ≤ s.clones → s.aborted = false) ∧ (s.clones = 0 → s.aborted = true)) →
      ((1 ≤ (runClientOps s ops).clones → (runClientOps s ops).aborted = false) ∧
        ((runClientOps s ops).clones = 0 → (runClientOps s ops).aborted = true)) := by
  induction ops with
  | nil => intro s _ hI; exact hI
  | cons op rest ih =>
      intro s hv hI
      cases op with
      | cloneOp =>
          simp only [validClientOps, Bool.and_eq_true, decide_eq_true_eq] at hv
          refine ih (cloneClient s) ?_ ?_
          · exact hv.2
          · constructor
            · intro _
              exact hI.1 hv.1
            · intro h0
              simp [cloneClient] at h0
      | dropOp =>
          simp only [validClientOps, Bool.and_eq_true, decide_eq_true_eq] at hv
          refine ih (dropClient s) ?_ ?_
          · exact hv.2
          · constructor
            · intro h1
              have h2 : 2 ≤ s.clones := by
                have := hv.1
                simp only [dropClient] at h1
                omega
              simp only [dropClient, if_neg (by omega : ¬ s.clones ≤ 1)]
              exact hI.1 (by omega)
            · intro h0
              simp only [dropClient] at h0 ⊢
              have : s.clones ≤ 1 := by omega
              simp [this]

/-- A trace with no drop never touches the shared reply map. -/
theorem runClientOps_no_drop_map (ops : List ClientOp) (hnd : ClientOp.dropOp ∉ ops) :
    ∀ s : ClientState, (runClientOps s ops).map = s.map := by
  induction ops with
  | nil => intro s; rfl
  | cons op rest ih =>
      intro s
      cases op with
      | cloneOp =>
          have : ClientOp.dropOp ∉ rest := fun h => hnd (List.mem_cons_of_mem _ h)
          simp only [runClientOps, ih this, cloneClient]
      | dropOp => exact absurd (List.mem_cons_self _ _) hnd

/-- With the alive flag up, new_waiter is never refused with
ClientDestroyed (it either succeeds or fails with IdenticalRequests). -/
theorem new_waiter_alive_not_destroyed (s : ReplyMapState) (host : IpAddr)
    (ident : Option Nat) (seq : Nat) (halive : s.alive = true) :
    (s.new_waiter host ident seq).1 ≠ .error .clientDestroyed := by
  unfold ReplyMapState.new_waiter
  rw [halive]
  simp only [Bool.not_true, Bool.false_eq_true, if_false]
  cases h : (insertEntry s.entries ⟨host, ident, seq⟩ s.next).1 with
  | some w => simp [h]
  | none => simp [h]

/-- C1 (amended): along every valid lifecycle trace from a fresh client,
the receiver task is alive while at least one clone exists and is aborted
exactly when the last clone is dropped; but new_waiter on the shared reply
map is guaranteed not to be refused with ClientDestroyed only as long as no
clone has been dropped — dropping any clone (not just the last) marks the
reply map destroyed. -/
theorem c1_receiver_lifecycle (ops : List ClientOp)
    (hv : validClientOps 1 ops = true) :
    ((1 ≤ (runClientOps clientNew ops).clones →
        (runClientOps clientNew ops).aborted = false) ∧
      ((runClientOps clientNew ops).clones = 0 →
        (runClientOps clientNew ops).aborted = true)) ∧
    (ClientOp.dropOp ∉ ops → ∀ (host : IpAddr) (ident : Option Nat) (seq : Nat),
      ((runClientOps clientNew ops).map.new_waiter host ident seq).1 ≠
        .error .clientDestroyed) := by
  constructor
  · exact runClientOps_abort_inv ops clientNew hv ⟨fun _ => rfl, fun h => absurd h (by decide)⟩
  · intro hnd host ident seq
    have hmap : (runClientOps clientNew ops).map = clientNew.map :=
      runClientOps_no_drop_map ops hnd clientNew
    rw [hmap]
    exact new_waiter_alive_not_destroyed _ host ident seq rfl

/-- Witness for the amended C1 on the trace [clone]: the receiver is not
aborted and new_waiter is not refused with ClientDestroyed. -/
theorem c1_receiver_lifecycle_witness :
    (runClientOps clientNew [ClientOp.cloneOp]).aborted = false ∧
    ((runClientOps clientNew [ClientOp.cloneOp]).map.new_waiter
        (IpAddr.V4 ⟨127, 0, 0, 1⟩) (some 7) 3).1 ≠ .error .clientDestroyed := by
  have h := c1_receiver_lifecycle [ClientOp.cloneOp] (by decide)
  exact ⟨h.1.1 (by decide), h.2 (by decide) (IpAddr.V4 ⟨127, 0, 0, 1⟩) (some 7) 3⟩

/-- C4: in every receiver iteration whose datagram fails to decode (any
error kind), the reply map is unchanged, no waiter is removed and no Reply
is delivered, and the loop simply proceeds: running the receiver over the
failing datagram followed by any further datagrams is the same as running
it over the further datagrams alone — the task never terminates on
malformed input. -/
theorem c4_decode_error_is_skipped (platformLinuxLike : Bool) (sock_type : SockType)
    (localAddr : IpAddr) (s : ReplyMapState) (d : Datagram) (rest : List Datagram)
    (hfail : decodeFails platformLinuxLike sock_type localAddr d.msg d.peer) :
    recv_step platformLinuxLike sock_type localAddr s d.msg d.peer d.now = (s, none) ∧
    recv_run platformLinuxLike sock_type localAddr s (d :: rest) =
      recv_run platformLinuxLike sock_type localAddr s rest := by
  have hstep : recv_step platformLinuxLike sock_type localAddr s d.msg d.peer d.now =
      (s, none) := by
    cases hpeer : d.peer with
    | V4 src =>
        cases hla : localAddr with
        | V4 l =>
            simp only [decodeFails, hpeer, hla] at hfail
            obtain ⟨e, he⟩ := hfail
            simp [recv_step, he]
        | V6 a => simp [recv_step]
    | V6 src =>
        simp only [decodeFails, hpeer] at hfail
        obtain ⟨e, he⟩ := hfail
        simp [recv_step, he]
  refine ⟨hstep, ?_⟩
  simp [recv_run, hstep]

/-- Witness for C4 at the malformed datagram of the specification, received
on a raw socket from 172.217.14.110 with a waiter registered: the map is
untouched, nothing is delivered, and the receiver goes on to the next
datagram. -/
theorem c4_decode_error_is_skipped_witness :
    recv_step false SockType.raw (IpAddr.V4 ⟨10, 0, 242, 34⟩) sampleMapState
        malformedV4Msg (IpAddr.V4 ⟨172, 217, 14, 110⟩) 5 = (sampleMapState, none) ∧
    recv_run false SockType.raw (IpAddr.V4 ⟨10, 0, 242, 34⟩) sampleMapState
        [⟨malformedV4Msg, IpAddr.V4 ⟨172, 217, 14, 110⟩, 5⟩] =
      recv_run false SockType.raw (IpAddr.V4 ⟨10, 0, 242, 34⟩) sampleMapState [] :=
  c4_decode_error_is_skipped false SockType.raw (IpAddr.V4 ⟨10, 0, 242, 34⟩)
    sampleMapState ⟨malformedV4Msg, IpAddr.V4 ⟨172, 217, 14, 110⟩, 5⟩ []
    ⟨.malformedPacket (.payloadTooShort 2 32), rfl⟩

/-- The echo-request encoder in explicit form: an 8-byte header followed by
the payload, with the identifier and checksum fields zero on a Linux/Android
unprivileged ICMP datagram socket and filled in otherwise. -/
theorem make_icmpv4_explicit (platformLinuxLike : Bool) (ident seq : Nat)
    (st : SockType) (payload : List Nat) :
    make_icmpv4_echo_packet platformLinuxLike ident seq st payload =
      if is_linux_icmp_socket platformLinuxLike st then
        .ok (8 :: 0 :: 0 :: 0 :: 0 :: 0 :: (seq / 256 % 256) :: (seq % 256) :: payload)
      else
        .ok (8 :: 0 ::
          (icmpChecksum (8 :: 0 :: 0 :: 0 :: (ident / 256 % 256) :: (ident % 256) ::
              (seq / 256 % 256) :: (seq % 256) :: payload) / 256 % 256) ::
          (icmpChecksum (8 :: 0 :: 0 :: 0 :: (ident / 256 % 256) :: (ident % 256) ::
              (seq / 256 % 256) :: (seq % 256) :: payload) % 256) ::
          (ident / 256 % 256) :: (ident % 256) ::
          (seq / 256 % 256) :: (seq % 256) :: payload) := by
  have hrep : (List.replicate (8 + payload.length) 0 : List Nat) =
      0 :: 0 :: 0 :: 0 :: 0 :: 0 :: 0 :: 0 :: List.replicate payload.length 0 := by
    rw [List.replicate_add]
    rfl
  have hlen1 : ¬ ((List.replicate (8 + payload.length) 0 : List Nat).length < 8) := by
    simp only [List.length_replicate]
    omega
  have hset : ((0 : Nat) :: 0 :: 0 :: 0 :: 0 :: 0 :: 0 :: 0 ::
      List.replicate payload.length 0).set 0 8 =
      8 :: 0 :: 0 :: 0 :: 0 :: 0 :: 0 :: 0 :: List.replicate payload.length 0 := rfl
  have hb2 : setPayloadAt8
      (8 :: 0 :: 0 :: 0 :: 0 :: 0 :: 0 :: 0 :: List.replicate payload.length 0) payload =
      8 :: 0 :: 0 :: 0 :: 0 :: 0 :: 0 :: 0 :: payload := by
    unfold setPayloadAt8
    have hdrop : ((8 : Nat) :: 0 :: 0 :: 0 :: 0 :: 0 :: 0 :: 0 ::
        List.replicate payload.length 0).drop (8 + payload.length) = [] := by
      apply List.drop_eq_nil_of_le
      simp only [List.length_cons, List.length_replicate]
      omega
    have htake : ((8 : Nat) :: 0 :: 0 :: 0 :: 0 :: 0 :: 0 :: 0 ::
        List.replicate payload.length 0).take 8 = [8, 0, 0, 0, 0, 0, 0, 0] := rfl
    rw [hdrop, htake]
    simp
  have hs3 : set16 (8 :: 0 :: 0 :: 0 :: 0 :: 0 :: 0 :: 0 :: payload) 6 seq =
      8 :: 0 :: 0 :: 0 :: 0 :: 0 :: (seq / 256 % 256) :: (seq % 256) :: payload := rfl
  have hs4 : set16 (8 :: 0 :: 0 :: 0 :: 0 :: 0 :: (seq / 256 % 256) :: (seq % 256) :: payload)
      4 ident =
      8 :: 0 :: 0 :: 0 :: (ident / 256 % 256) :: (ident % 256) ::
        (seq / 256 % 256) :: (seq % 256) :: payload := rfl
  simp only [make_icmpv4_echo_packet]
  rw [if_neg hlen1, hrep, hset, hb2, hs3]
  by_cases hl : is_linux_icmp_socket platformLinuxLike st = true
  · rw [if_pos hl, if_pos hl]
  · rw [if_neg hl, if_neg hl, hs4]
    have hlen4 : ¬ (((8 : Nat) :: 0 :: 0 :: 0 :: (ident / 256 % 256) :: (ident % 256) ::
        (seq / 256 % 256) :: (seq % 256) :: payload).length < 4) := by
      simp only [List.length_cons]
      omega
    rw [if_neg hlen4]
    rfl

/-- C5: for every identifier hint, sequence (both u16) and payload, the v4
echo-request encoder returns a buffer of 8 plus payload-length bytes with
ICMP type 8, code 0, the given sequence in bytes 6..8 and the payload after
the 8-byte header; on a Linux/Android unprivileged ICMP datagram socket the
identifier and checksum fields are left zero, and otherwise the identifier
field holds the hint and the checksum field holds the standard internet
checksum (ones-complement 16-bit sum, the checksum word itself skipped)
over header plus payload. -/
theorem c5_echo_request_encoding (platformLinuxLike : Bool) (st : SockType)
    (ident seq : Nat) (payload : List Nat)
    (hident : ident < 65536) (hseq : seq < 65536) :
    ∃ buf : List Nat,
      make_icmpv4_echo_packet platformLinuxLike ident seq st payload = .ok buf ∧
      buf.length = 8 + payload.length ∧
      buf.getD 0 0 = 8 ∧
      buf.getD 1 0 = 0 ∧
      be16 buf 6 = seq ∧
      buf.drop 8 = payload ∧
      (if is_linux_icmp_socket platformLinuxLike st then
        be16 buf 4 = 0 ∧ be16 buf 2 = 0
       else
        be16 buf 4 = ident ∧ be16 buf 2 = icmpChecksum buf) := by
  by_cases hl : is_linux_icmp_socket platformLinuxLike st = true
  · have hmk : make_icmpv4_echo_packet platformLinuxLike ident seq st payload =
        .ok (8 :: 0 :: 0 :: 0 :: 0 :: 0 :: (seq / 256 % 256) :: (seq % 256) :: payload) := by
      rw [make_icmpv4_explicit, if_pos hl]
    refine ⟨_, hmk, ?_, rfl, rfl, ?_, rfl, ?_⟩
    · simp only [List.length_cons]
      omega
    · show 256 * (seq / 256 % 256) + seq % 256 = seq
      omega
    · rw [if_pos hl]
      exact ⟨rfl, rfl⟩
  · have hmk : make_icmpv4_echo_packet platformLinuxLike ident seq st payload =
        .ok (8 :: 0 ::
          (icmpChecksum (8 :: 0 :: 0 :: 0 :: (ident / 256 % 256) :: (ident % 256) ::
              (seq / 256 % 256) :: (seq % 256) :: payload) / 256 % 256) ::
          (icmpChecksum (8 :: 0 :: 0 :: 0 :: (ident / 256 % 256) :: (ident % 256) ::
              (seq / 256 % 256) :: (seq % 256) :: payload) % 256) ::
          (ident / 256 % 256) :: (ident % 256) ::
          (seq / 256 % 256) :: (seq % 256) :: payload) := by
      rw [make_icmpv4_explicit, if_neg hl]
    refine ⟨_, hmk, ?_, rfl, rfl, ?_, rfl, ?_⟩
    · simp only [List.length_cons]
      omega
    · show 256 * (seq / 256 % 256) + seq % 256 = seq
      omega
    · rw [if_neg hl]
      constructor
      · show 256 * (ident / 256 % 256) + ident % 256 = ident
        omega
      · have hsame : icmpChecksum (8 :: 0 ::
            (icmpChecksum (8 :: 0 :: 0 :: 0 :: (ident / 256 % 256) :: (ident % 256) ::
                (seq / 256 % 256) :: (seq % 256) :: payload) / 256 % 256) ::
            (icmpChecksum (8 :: 0 :: 0 :: 0 :: (ident / 256 % 256) :: (ident % 256) ::
                (seq / 256 % 256) :: (seq % 256) :: payload) % 256) ::
            (ident / 256 % 256) :: (ident % 256) ::
            (seq / 256 % 256) :: (seq % 256) :: payload) =
            icmpChecksum (8 :: 0 :: 0 :: 0 :: (ident / 256 % 256) :: (ident % 256) ::
              (seq / 256 % 256) :: (seq % 256) :: payload) := rfl
        rw [hsame]
        have hck : icmpChecksum (8 :: 0 :: 0 :: 0 :: (ident / 256 % 256) :: (ident % 256) ::
            (seq / 256 % 256) :: (seq % 256) :: payload) ≤ 65535 := Nat.sub_le _ _
        show 256 * (icmpChecksum _ / 256 % 256) + icmpChecksum _ % 256 = icmpChecksum _
        omega

/-- Witness for C5 at identifier 200, sequence 0, an eight-zero payload and
a raw socket. -/
theorem c5_echo_request_encoding_witness :
    ∃ buf : List Nat,
      make_icmpv4_echo_packet false 200 0 SockType.raw [0, 0, 0, 0, 0, 0, 0, 0] = .ok buf ∧
      buf.length = 8 + ([0, 0, 0, 0, 0, 0, 0, 0] : List Nat).length ∧
      buf.getD 0 0 = 8 ∧
      buf.getD 1 0 = 0 ∧
      be16 buf 6 = 0 ∧
      buf.drop 8 = [0, 0, 0, 0, 0, 0, 0, 0] ∧
      (if is_linux_icmp_socket false SockType.raw then
        be16 buf 4 = 0 ∧ be16 buf 2 = 0
       else
        be16 buf 4 = 200 ∧ be16 buf 2 = icmpChecksum buf) :=
  c5_echo_request_encoding false SockType.raw 200 0 [0, 0, 0, 0, 0, 0, 0, 0]
    (by decide) (by decide)

/-- C6: for every v4 datagram whose ICMP type is neither echo reply (0) nor
echo request (8), in both decode shapes: when the ICMP payload has fewer
than 32 octets the decode fails with PayloadTooShort (got the payload
length, want 32); otherwise it succeeds and the packet has real_dest the
destination of the embedded IPv4 header parsed at payload offset 4,
identifier the big-endian u16 at payload offsets 28..30 and sequence the
one at offsets 30..32. -/
theorem c6_v4_non_echo_decode (bufI bufR : List Nat) (src dst : Ipv4Addr) :
    (4 ≤ bufI.length → bufI.getD 0 0 ≠ 0 → bufI.getD 0 0 ≠ 8 →
      (if (bufI.drop 4).length < 32 then
        Icmpv4Packet.decode_from_icmp bufI src dst =
          .error (.malformedPacket (.payloadTooShort (bufI.drop 4).length 32))
      else
        ∃ p, Icmpv4Packet.decode_from_icmp bufI src dst = .ok p ∧
          p.real_dest = ipv4Destination ((bufI.drop 4).drop 4) ∧
          p.identifier = be16 (bufI.drop 4) 28 ∧
          p.sequence = be16 (bufI.drop 4) 30)) ∧
    (20 ≤ bufR.length → 4 ≤ (ipv4Payload bufR).length →
      (ipv4Payload bufR).getD 0 0 ≠ 0 → (ipv4Payload bufR).getD 0 0 ≠ 8 →
      (if ((ipv4Payload bufR).drop 4).length < 32 then
        Icmpv4Packet.decode_from_ipv4 bufR =
          .error (.malformedPacket (.payloadTooShort ((ipv4Payload bufR).drop 4).length 32))
      else
        ∃ p, Icmpv4Packet.decode_from_ipv4 bufR = .ok p ∧
          p.real_dest = ipv4Destination (((ipv4Payload bufR).drop 4).drop 4) ∧
          p.identifier = be16 ((ipv4Payload bufR).drop 4) 28 ∧
          p.sequence = be16 ((ipv4Payload bufR).drop 4) 30)) := by
  constructor
  · intro h4 ht0 ht8
    by_cases h32 : (bufI.drop 4).length < 32
    · rw [if_pos h32]
      simp only [Icmpv4Packet.decode_from_icmp]
      rw [if_neg (show ¬ bufI.length < 4 by omega), if_neg ht0, if_neg ht8, if_pos h32]
    · rw [if_neg h32]
      have h32' := h32
      simp only [List.length_drop] at h32'
      have h20 : ¬ ((bufI.drop 4).drop 4).length < 20 := by
        simp only [List.length_drop]
        omega
      refine ⟨{ Icmpv4Packet.default with
          source := src
          destination := dst
          icmp_type := bufI.getD 0 0
          icmp_code := bufI.getD 1 0
          size := bufI.length
          real_dest := ipv4Destination ((bufI.drop 4).drop 4)
          identifier := be16 (bufI.drop 4) 28
          sequence := be16 (bufI.drop 4) 30 }, ?_, rfl, rfl, rfl⟩
      simp only [Icmpv4Packet.decode_from_icmp]
      rw [if_neg (show ¬ bufI.length < 4 by omega), if_neg ht0, if_neg ht8, if_neg h32,
        if_neg h20]
  · intro h20len h4 ht0 ht8
    by_cases h32 : ((ipv4Payload bufR).drop 4).length < 32
    · rw [if_pos h32]
      simp only [Icmpv4Packet.decode_from_ipv4]
      rw [if_neg (show ¬ bufR.length < 20 by omega),
        if_neg (show ¬ (ipv4Payload bufR).length < 4 by omega), if_neg ht0, if_neg ht8,
        if_pos h32]
    · rw [if_neg h32]
      have h32' := h32
      simp only [List.length_drop] at h32'
      have hg20 : ¬ (((ipv4Payload bufR).drop 4).drop 4).length < 20 := by
        simp only [List.length_drop]
        omega
      refine ⟨{ Icmpv4Packet.default with
          source := ipv4Source bufR
          destination := ipv4Destination bufR
          ttl := some (ipv4Ttl bufR)
          icmp_type := (ipv4Payload bufR).getD 0 0
          icmp_code := (ipv4Payload bufR).getD 1 0
          size := (ipv4Payload bufR).length
          real_dest := ipv4Destination (((ipv4Payload bufR).drop 4).drop 4)
          identifier := be16 ((ipv4Payload bufR).drop 4) 28
          sequence := be16 ((ipv4Payload bufR).drop 4) 30 }, ?_, rfl, rfl, rfl⟩
      simp only [Icmpv4Packet.decode_from_ipv4]
      rw [if_neg (show ¬ bufR.length < 20 by omega),
        if_neg (show ¬ (ipv4Payload bufR).length < 4 by omega), if_neg ht0, if_neg ht8,
        if_neg h32, if_neg hg20]

/-- Witness for C6 at a concrete destination-unreachable message in both
shapes: the embedded destination 1.2.3.4, identifier 42 and sequence 7 are
recovered. -/
theorem c6_v4_non_echo_decode_witness :
    (if (sampleUnreachIcmp.drop 4).length < 32 then
      Icmpv4Packet.decode_from_icmp sampleUnreachIcmp ⟨192, 0, 2, 9⟩ ⟨10, 0, 0, 2⟩ =
        .error (.malformedPacket (.payloadTooShort (sampleUnreachIcmp.drop 4).length 32))
    else
      ∃ p, Icmpv4Packet.decode_from_icmp sampleUnreachIcmp ⟨192, 0, 2, 9⟩ ⟨10, 0, 0, 2⟩ =
          .ok p ∧
        p.real_dest = ipv4Destination ((sampleUnreachIcmp.drop 4).drop 4) ∧
        p.identifier = be16 (sampleUnreachIcmp.drop 4) 28 ∧
        p.sequence = be16 (sampleUnreachIcmp.drop 4) 30) ∧
    (if ((ipv4Payload sampleUnreachIpv4).drop 4).length < 32 then
      Icmpv4Packet.decode_from_ipv4 sampleUnreachIpv4 =
        .error (.malformedPacket
          (.payloadTooShort ((ipv4Payload sampleUnreachIpv4).drop 4).length 32))
    else
      ∃ p, Icmpv4Packet.decode_from_ipv4 sampleUnreachIpv4 = .ok p ∧
        p.real_dest = ipv4Destination (((ipv4Payload sampleUnreachIpv4).drop 4).drop 4) ∧
        p.identifier = be16 ((ipv4Payload sampleUnreachIpv4).drop 4) 28 ∧
        p.sequence = be16 ((ipv4Payload sampleUnreachIpv4).drop 4) 30) :=
  ⟨(c6_v4_non_echo_decode sampleUnreachIcmp sampleUnreachIpv4 ⟨192, 0, 2, 9⟩ ⟨10, 0, 0, 2⟩).1
      (by decide) (by decide) (by decide),
    (c6_v4_non_echo_decode sampleUnreachIcmp sampleUnreachIpv4 ⟨192, 0, 2, 9⟩ ⟨10, 0, 0, 2⟩).2
      (by decide) (by decide) (by decide) (by decide)⟩

/-- C7: for every buffer the ICMPv6 decoder accepts, an echo reply (type
129) carries identifier and sequence in the first four octets of the ICMPv6
payload, and every other accepted type carries them at payload offsets
44..46 and 46..48; a non-echo type whose payload has fewer than 48 octets
is rejected with PayloadTooShort. -/
theorem c7_v6_ident_seq_offsets (buf : List Nat) (dst : Ipv6Addr) :
    (∀ p : Icmpv6Packet, Icmpv6Packet.decode buf dst = .ok p →
      (p.icmpv6_type = 129 →
        p.identifier = be16 (buf.drop 4) 0 ∧ p.sequence = be16 (buf.drop 4) 2) ∧
      (p.icmpv6_type ≠ 129 →
        p.identifier = be16 (buf.drop 4) 44 ∧ p.sequence = be16 (buf.drop 4) 46)) ∧
    (4 ≤ buf.length → buf.getD 0 0 ≠ 128 → buf.getD 0 0 ≠ 129 →
      (buf.drop 4).length < 48 →
      Icmpv6Packet.decode buf dst =
        .error (.malformedPacket (.payloadTooShort (buf.drop 4).length 48))) := by
  constructor
  · intro p hok
    simp only [Icmpv6Packet.decode] at hok
    by_cases hlen : buf.length < 4
    · rw [if_pos hlen] at hok
      exact Except.noConfusion hok
    · rw [if_neg hlen] at hok
      by_cases h128 : buf.getD 0 0 = 128
      · rw [if_pos h128] at hok
        exact Except.noConfusion hok
      · rw [if_neg h128] at hok
        by_cases h129 : buf.getD 0 0 = 129
        · rw [if_pos h129] at hok
          by_cases hp4 : (buf.drop 4).length < 4
          · rw [if_pos hp4] at hok
            exact Except.noConfusion hok
          · rw [if_neg hp4] at hok
            injection hok with h
            subst h
            constructor
            · intro _
              exact ⟨rfl, rfl⟩
            · intro hne
              exact absurd h129 hne
        · rw [if_neg h129] at hok
          by_cases hp48 : (buf.drop 4).length < 48
          · rw [if_pos hp48] at hok
            exact Except.noConfusion hok
          · rw [if_neg hp48] at hok
            injection hok with h
            subst h
            constructor
            · intro h129x
              exact absurd h129x h129
            · intro _
              exact ⟨rfl, rfl⟩
  · intro h4 h128 h129 h48
    simp only [Icmpv6Packet.decode]
    rw [if_neg (show ¬ buf.length < 4 by omega), if_neg h128, if_neg h129, if_pos h48]

/-- Witness for C7: a destination-unreachable with an empty payload is
rejected with PayloadTooShort{0, 48}, and the echo reply 129 00 0000 0005
0009 decodes with identifier 5 and sequence 9 read from the first four
payload octets. -/
theorem c7_v6_ident_seq_offsets_witness :
    Icmpv6Packet.decode [3, 0, 0, 0] Ipv6Addr.localhost =
      .error (.malformedPacket (.payloadTooShort 0 48)) ∧
    (sampleReply6FromLocal.identifier =
        be16 (([129, 0, 0, 0, 0, 5, 0, 9] : List Nat).drop 4) 0 ∧
      sampleReply6FromLocal.sequence =
        be16 (([129, 0, 0, 0, 0, 5, 0, 9] : List Nat).drop 4) 2) := by
  constructor
  · exact (c7_v6_ident_seq_offsets [3, 0, 0, 0] Ipv6Addr.localhost).2
      (by decide) (by decide) (by decide) (by decide)
  · exact ((c7_v6_ident_seq_offsets [129, 0, 0, 0, 0, 5, 0, 9] Ipv6Addr.localhost).1
      sampleReply6FromLocal rfl).1 rfl

/-- C8: a decoded echo request is rejected with EchoRequestPacket in all
three decoders: v4 type 8 in the unprivileged-datagram shape, v4 type 8 in
the raw-socket shape, and v6 type 128, so a locally looped-back request is
never decoded as a reply packet. -/
theorem c8_echo_request_rejected (buf4 bufR buf6 : List Nat) (src dst : Ipv4Addr)
    (d6 : Ipv6Addr) :
    (4 ≤ buf4.length → buf4.getD 0 0 = 8 →
      Icmpv4Packet.decode_from_icmp buf4 src dst = .error .echoRequestPacket) ∧
    (20 ≤ bufR.length → 4 ≤ (ipv4Payload bufR).length → (ipv4Payload bufR).getD 0 0 = 8 →
      Icmpv4Packet.decode_from_ipv4 bufR = .error .echoRequestPacket) ∧
    (4 ≤ buf6.length → buf6.getD 0 0 = 128 →
      Icmpv6Packet.decode buf6 d6 = .error .echoRequestPacket) := by
  refine ⟨?_, ?_, ?_⟩
  · intro h4 ht
    simp only [Icmpv4Packet.decode_from_icmp]
    rw [if_neg (show ¬ buf4.length < 4 by omega),
      if_neg (show ¬ buf4.getD 0 0 = 0 by omega), if_pos ht]
  · intro h20 h4 ht
    simp only [Icmpv4Packet.decode_from_ipv4]
    rw [if_neg (show ¬ bufR.length < 20 by omega),
      if_neg (show ¬ (ipv4Payload bufR).length < 4 by omega),
      if_neg (show ¬ (ipv4Payload bufR).getD 0 0 = 0 by omega), if_pos ht]
  · intro h4 ht
    simp only [Icmpv6Packet.decode]
    rw [if_neg (show ¬ buf6.length < 4 by omega), if_pos ht]

/-- Witness for C8 at concrete echo requests: bare type-8 v4 messages in
both shapes and a bare type-128 v6 message, all rejected. -/
theorem c8_echo_request_rejected_witness :
    Icmpv4Packet.decode_from_icmp [8, 0, 0, 0] ⟨1, 1, 1, 1⟩ ⟨2, 2, 2, 2⟩ =
      .error .echoRequestPacket ∧
    Icmpv4Packet.decode_from_ipv4
      [69, 0, 0, 24, 0, 0, 0, 0, 64, 1, 0, 0, 1, 1, 1, 1, 2, 2, 2, 2, 8, 0, 0, 0] =
      .error .echoRequestPacket ∧
    Icmpv6Packet.decode [128, 0, 0, 0] Ipv6Addr.localhost = .error .echoRequestPacket := by
  have h := c8_echo_request_rejected [8, 0, 0, 0]
    [69, 0, 0, 24, 0, 0, 0, 0, 64, 1, 0, 0, 1, 1, 1, 1, 2, 2, 2, 2, 8, 0, 0, 0]
    [128, 0, 0, 0] ⟨1, 1, 1, 1⟩ ⟨2, 2, 2, 2⟩ Ipv6Addr.localhost
  exact ⟨h.1 (by decide) (by decide), h.2.1 (by decide) (by decide) (by decide),
    h.2.2 (by decide) (by decide)⟩

/-- C10: every packet the ICMPv6 decoder accepts has max_hop_limit 0; an
accepted echo reply has destination the constant ::1 regardless of the
actual local address, and every accepted non-echo type has real_dest the
constant ::1 — the decoder never reads a real destination from the
embedded offending packet. -/
theorem c10_v6_constant_fields (buf : List Nat) (dst : Ipv6Addr) (p : Icmpv6Packet)
    (hok : Icmpv6Packet.decode buf dst = .ok p) :
    p.max_hop_limit = 0 ∧
    (p.icmpv6_type = 129 → p.destination = Ipv6Addr.localhost) ∧
    (p.icmpv6_type ≠ 129 → p.real_dest = Ipv6Addr.localhost) := by
  simp only [Icmpv6Packet.decode] at hok
  by_cases hlen : buf.length < 4
  · rw [if_pos hlen] at hok
    exact Except.noConfusion hok
  · rw [if_neg hlen] at hok
    by_cases h128 : buf.getD 0 0 = 128
    · rw [if_pos h128] at hok
      exact Except.noConfusion hok
    · rw [if_neg h128] at hok
      by_cases h129 : buf.getD 0 0 = 129
      · rw [if_pos h129] at hok
        by_cases hp4 : (buf.drop 4).length < 4
        · rw [if_pos hp4] at hok
          exact Except.noConfusion hok
        · rw [if_neg hp4] at hok
          injection hok with h
          subst h
          exact ⟨rfl, fun _ => rfl, fun hne => absurd h129 hne⟩
      · rw [if_neg h129] at hok
        by_cases hp48 : (buf.drop 4).length < 48
        · rw [if_pos hp48] at hok
          exact Except.noConfusion hok
        · rw [if_neg hp48] at hok
          injection hok with h
          subst h
          exact ⟨rfl, fun h129x => absurd h129x h129, fun _ => rfl⟩

/-- Witness for C10 at an echo reply received from the non-local address
102:304:506:708:90a:b0c:d0e:f10 (sixteen increasing bytes): the decoded
destination is still the constant ::1 and max_hop_limit is 0. -/
theorem c10_v6_constant_fields_witness :
    sampleReply6FromRemote.max_hop_limit = 0 ∧
    (sampleReply6FromRemote.icmpv6_type = 129 →
      sampleReply6FromRemote.destination = Ipv6Addr.localhost) ∧
    (sampleReply6FromRemote.icmpv6_type ≠ 129 →
      sampleReply6FromRemote.real_dest = Ipv6Addr.localhost) :=
  c10_v6_constant_fields [129, 0, 0, 0, 0, 1, 0, 2] ⟨[1, 2, 3, 4, 5, 6, 7, 8]⟩
    sampleReply6FromRemote rfl

/-- C9: every ping that returns Ok pairs the decoded packet with the
duration from the send timestamp to the arrival timestamp of the reply,
computed with a saturating subtraction: when the clock is monotone (arrival
at least send) the duration is exactly arrival minus send, and when the
clock runs backwards the duration clamps to zero. -/
theorem c9_ping_duration (send_time seq : Nat) (r : Delivery) :
    pinger_ping send_time seq (.delivered r) =
      .ok (r.packet, saturating_duration_since r.timestamp send_time) ∧
    (send_time ≤ r.timestamp →
      send_time ≤ r.timestamp ∧
      pinger_ping send_time seq (.delivered r) =
        .ok (r.packet, r.timestamp - send_time)) ∧
    (r.timestamp < send_time →
      pinger_ping send_time seq (.delivered r) = .ok (r.packet, 0)) := by
  refine ⟨rfl, ?_, ?_⟩
  · intro h
    refine ⟨h, ?_⟩
    simp [pinger_ping, pinger_recv_reply, saturating_duration_since, h]
  · intro h
    simp [pinger_ping, pinger_recv_reply, saturating_duration_since,
      (show ¬ send_time ≤ r.timestamp by omega)]

/-- Witness for C9 with send time 4 and arrival time 10: the duration is
6; and with send time 10 and arrival time 4 the duration clamps to 0. -/
theorem c9_ping_duration_witness :
    pinger_ping 4 0 (.delivered ⟨1, 10, .V4 Icmpv4Packet.default⟩) =
      .ok (IcmpPacket.V4 Icmpv4Packet.default, 6) ∧
    pinger_ping 10 0 (.delivered ⟨1, 4, .V4 Icmpv4Packet.default⟩) =
      .ok (IcmpPacket.V4 Icmpv4Packet.default, 0) :=
  ⟨((c9_ping_duration 4 0 ⟨1, 10, .V4 Icmpv4Packet.default⟩).2.1 (by decide)).2,
    (c9_ping_duration 10 0 ⟨1, 4, .V4 Icmpv4Packet.default⟩).2.2 (by decide)⟩
